import Mathlib

/-!
Verification of the pomodoro timer (src/main.py): the phase/countdown state
machine of `PomodoroApp` and the procedural synthesis engine
(`_generate_sound`, `_generate_bell_sound`).

State-machine embedding notes.  The app uses Textual reactive attributes:
writing to a reactive attribute invokes its `watch_*` method synchronously
when the value changes.  The only watchers with semantic (non-UI) effect are
`watch_time_left` (calls `_advance_phase` when the new value is <= 0, src
lines 277-280) and `watch_tick_sound` (updates `_tick_path` when the new name
is a known preset, src lines 294-296).  Emitted play requests
(`_play_tick(path)`) are recorded as a list of the WAV identifiers played:
the bell file is recorded as "bell", a tick is recorded as the preset name
whose file `_tick_path` currently points at.
-/

namespace Pomodoro

/-- WORK_SECONDS (src line 19). -/
def workSeconds : Int := 25 * 60

/-- SHORT_BREAK_SECONDS (src line 20). -/
def shortBreakSeconds : Int := 5 * 60

/-- LONG_BREAK_SECONDS (src line 21). -/
def longBreakSeconds : Int := 15 * 60

/-- SESSIONS_BEFORE_LONG_BREAK (src line 22). -/
def sessionsBeforeLongBreak : Nat := 4

/-- The phase strings "work" / "short_break" / "long_break" used by the app. -/
inductive Phase where
  | work
  | short_break
  | long_break
  deriving DecidableEq

/-- Nominal duration of a phase: the durations dictionary of
`action_reset_timer` (src lines 353-357), which agrees with the values
assigned by `_advance_phase`. -/
def duration : Phase → Int
  | Phase.work => workSeconds
  | Phase.short_break => shortBreakSeconds
  | Phase.long_break => longBreakSeconds

/-- The reactive attributes of `PomodoroApp` (src lines 237-241) together
with the private fields `_tick_path` (the preset name whose WAV file the
tick plays) and `_tick_timer` (whether an interval timer object exists,
src lines 251 and 307). -/
structure TimerState where
  timeLeft : Int
  isRunning : Bool
  sessionCount : Nat
  phase : Phase
  tickSound : String
  tickPath : String
  hasTimer : Bool
  deriving DecidableEq

/-- `PomodoroApp._advance_phase` (src lines 323-339): stop the countdown,
play the bell, bump the session counter when leaving work, move to the next
phase and reload `time_left` with its duration.  The terminal bell
`self.bell()` is not a PCM play request and is not recorded.  The
`time_left` assignments here are all positive, so the nested
`watch_time_left` calls have no semantic effect. -/
def advancePhase (s : TimerState) : TimerState × List String :=
  let s1 : TimerState := { s with isRunning := false, hasTimer := false }
  if s1.phase = Phase.work then
    let sc := s1.sessionCount + 1
    if sc % sessionsBeforeLongBreak = 0 then
      ({ s1 with sessionCount := sc, phase := Phase.long_break,
                 timeLeft := longBreakSeconds }, ["bell"])
    else
      ({ s1 with sessionCount := sc, phase := Phase.short_break,
                 timeLeft := shortBreakSeconds }, ["bell"])
  else
    ({ s1 with phase := Phase.work, timeLeft := workSeconds }, ["bell"])

/-- A reactive write to `time_left`: Textual stores the new value and then
invokes `watch_time_left` when the value changed; the watcher advances the
phase when the value is <= 0 (src lines 277-280). -/
def assignTimeLeft (s : TimerState) (v : Int) : TimerState × List String :=
  if v = s.timeLeft then (s, [])
  else
    let s' : TimerState := { s with timeLeft := v }
    if v ≤ 0 then advancePhase s' else (s', [])

/-- `PomodoroApp._tick` (src lines 318-321): when `time_left > 0`, decrement
it (the reactive write may advance the phase and play the bell), then play
the current tick WAV. -/
def tick (s : TimerState) : TimerState × List String :=
  if s.timeLeft > 0 then
    let p := assignTimeLeft s (s.timeLeft - 1)
    (p.1, p.2 ++ [p.1.tickPath])
  else (s, [])

/-- `PomodoroApp.action_toggle_timer` (src lines 343-348). -/
def toggleTimer (s : TimerState) : TimerState :=
  let s1 : TimerState := { s with isRunning := !s.isRunning }
  if s1.isRunning then { s1 with hasTimer := true }
  else { s1 with hasTimer := false }

/-- `PomodoroApp.action_reset_timer` (src lines 350-358). -/
def resetTimer (s : TimerState) : TimerState × List String :=
  let s1 : TimerState := { s with isRunning := false, hasTimer := false }
  assignTimeLeft s1 (duration s1.phase)

/-- `PomodoroApp.action_skip` (src lines 360-363). -/
def skip (s : TimerState) : TimerState × List String :=
  advancePhase { s with isRunning := false, hasTimer := false }

/-- TICK_SOUNDS (src lines 24-35), which is also the key set of
`_sound_paths` (src lines 246-250). -/
def tickSounds : List String :=
  ["Mechanical Clock", "Soft Click", "Woodblock", "Metronome", "Drip",
   "Typewriter", "Pulse", "Chirp", "Snap", "Sonar"]

/-- Selecting a tick sound: `_on_sound_picked` (src lines 298-300) assigns
`tick_sound` for a non-empty name, and the reactive write invokes
`watch_tick_sound` (src lines 294-296) when the name changed, which updates
`_tick_path` only for a known preset name. -/
def selectTickPreset (s : TimerState) (name : String) : TimerState :=
  if name = "" then s
  else if name = s.tickSound then s
  else
    let s1 : TimerState := { s with tickSound := name }
    if name ∈ tickSounds then { s1 with tickPath := name } else s1

/-- The five operations of the state machine. -/
inductive Op where
  | toggle
  | reset
  | skipPhase
  | tickSecond
  | selectSound (name : String)

/-- Apply one operation, discarding the emitted play requests. -/
def applyOp (s : TimerState) (o : Op) : TimerState :=
  match o with
  | Op.toggle => toggleTimer s
  | Op.reset => (resetTimer s).1
  | Op.skipPhase => (skip s).1
  | Op.tickSecond => (tick s).1
  | Op.selectSound name => selectTickPreset s name

/-- The initial state of `PomodoroApp` (src lines 237-253): work phase, full
work duration, paused, zero sessions, "Metronome" selected and cached as the
tick path, no interval timer. -/
def initState : TimerState :=
  { timeLeft := workSeconds, isRunning := false, sessionCount := 0,
    phase := Phase.work, tickSound := "Metronome", tickPath := "Metronome",
    hasTimer := false }

/-- Run a sequence of operations from the initial state. -/
def runOps (ops : List Op) : TimerState := ops.foldl applyOp initState

/-- Run `tick` a number of times, collecting all play requests in order. -/
def ticksRun : Nat → TimerState → TimerState × List String
  | 0, s => (s, [])
  | n + 1, s =>
    let p := tick s
    let q := ticksRun n p.1
    (q.1, p.2 ++ q.2)

/-!
Synthesis-engine embedding.  `_generate_sound` (src lines 38-167) and
`_generate_bell_sound` (src lines 170-191) compute float samples from
`math.sin`, `math.exp`, `math.pi` and `random.uniform(-1, 1)`, clamp, scale
and truncate them to 16-bit integers.  The transcendental float functions
and the Mersenne-Twister generator are abstracted into a `MathOps`
structure: every theorem below holds for an arbitrary instantiation, so in
particular for the exact float semantics of the source.  Coefficients and
durations are embedded as exact rationals; for every preset the truncated
sample count `int(sample_rate * duration)` agrees between the exact-rational
and the float computation (checked by hand for each of the eleven
durations). -/

/-- The ambient float/PRNG operations of `_generate_sound`:
`math.sin`, `math.exp`, the constant `math.pi`, and the generator state of
the `random` module with `random.seed` and `random.uniform(-1, 1)`. -/
structure MathOps : Type 1 where
  Rng : Type
  seed : Nat → Rng
  next : Rng → ℚ × Rng
  sin : ℚ → ℚ
  exp : ℚ → ℚ
  pi : ℚ

/-- Python's `int()` on a float value: truncation toward zero. -/
def pyInt (q : ℚ) : Int := if 0 ≤ q then ⌊q⌋ else ⌈q⌉

/-- `max(-1.0, min(1.0, sample))` (e.g. src line 55). -/
def clampQ (x : ℚ) : ℚ := max (-1) (min 1 x)

/-- `int(amp * max(-1.0, min(1.0, sample)))`: clamp, scale to the preset's
peak amplitude, truncate to an integer sample. -/
def quantizeI (amp : Int) (x : ℚ) : Int := pyInt ((amp : ℚ) * clampQ x)

/-- `n_samples = int(sample_rate * duration)` with `sample_rate = 44100`
(e.g. src lines 44-45). -/
def nSamples (d : ℚ) : Nat := (pyInt (44100 * d)).toNat

/-- The per-preset sample loop `for i in range(n_samples)` (e.g. src lines
47-55): `t = i / sample_rate`, compute the raw sample (possibly drawing from
the generator), clamp/scale/truncate, append.  The first `Nat` is the
number of iterations left, the second the current index `i`. -/
def renderLoop (M : MathOps) (amp : Int) (f : ℚ → M.Rng → ℚ × M.Rng) :
    Nat → Nat → M.Rng → List Int × M.Rng
  | 0, _, r => ([], r)
  | k + 1, i, r =>
    let t : ℚ := (i : ℚ) / 44100
    let p := f t r
    let rest := renderLoop M amp f k (i + 1) p.2
    (quantizeI amp p.1 :: rest.1, rest.2)

/-- The "Mechanical Clock" branch (src lines 43-55). -/
def mechanicalClock (M : MathOps) (r : M.Rng) : List Int × M.Rng :=
  let dur : ℚ := 0.035
  renderLoop M 12000
    (fun t rr =>
      let envelope := M.exp (-t * 300)
      let low := M.sin (2 * M.pi * 120 * t)
      let mid := M.sin (2 * M.pi * 800 * t)
      let p := M.next rr
      let noise := p.1
      let attack := M.exp (-t * 600)
      (envelope * (0.35 * low + 0.30 * mid + 0.35 * noise * attack), p.2))
    (nSamples dur) 0 r

/-- The "Soft Click" branch (src lines 57-66). -/
def softClick (M : MathOps) (r : M.Rng) : List Int × M.Rng :=
  let dur : ℚ := 0.015
  renderLoop M 8000
    (fun t rr =>
      let envelope := M.exp (-t * 800)
      let tone := M.sin (2 * M.pi * 3000 * t)
      (envelope * tone, rr))
    (nSamples dur) 0 r

/-- The "Woodblock" branch (src lines 68-77). -/
def woodblock (M : MathOps) (r : M.Rng) : List Int × M.Rng :=
  let dur : ℚ := 0.04
  renderLoop M 10000
    (fun t rr =>
      let envelope := M.exp (-t * 200)
      let tone := M.sin (2 * M.pi * 600 * t) + 0.5 * M.sin (2 * M.pi * 1200 * t)
      (envelope * tone, rr))
    (nSamples dur) 0 r

/-- The "Metronome" branch (src lines 79-88). -/
def metronome (M : MathOps) (r : M.Rng) : List Int × M.Rng :=
  let dur : ℚ := 0.025
  renderLoop M 14000
    (fun t rr =>
      let envelope := M.exp (-t * 400)
      let tone := M.sin (2 * M.pi * 1000 * t)
      (envelope * tone, rr))
    (nSamples dur) 0 r

/-- The "Drip" branch (src lines 90-100). -/
def drip (M : MathOps) (r : M.Rng) : List Int × M.Rng :=
  let dur : ℚ := 0.06
  renderLoop M 10000
    (fun t rr =>
      let envelope := M.exp (-t * 150)
      let freq := 1200 - 800 * (t / dur)
      let tone := M.sin (2 * M.pi * freq * t)
      (envelope * tone, rr))
    (nSamples dur) 0 r

/-- The "Typewriter" branch (src lines 102-112). -/
def typewriter (M : MathOps) (r : M.Rng) : List Int × M.Rng :=
  let dur : ℚ := 0.012
  renderLoop M 14000
    (fun t rr =>
      let envelope := M.exp (-t * 1000)
      let p := M.next rr
      let noise := p.1
      let tone := M.sin (2 * M.pi * 4000 * t)
      (envelope * (0.6 * noise + 0.4 * tone), p.2))
    (nSamples dur) 0 r

/-- The "Pulse" branch (src lines 114-123). -/
def pulse (M : MathOps) (r : M.Rng) : List Int × M.Rng :=
  let dur : ℚ := 0.05
  renderLoop M 16000
    (fun t rr =>
      let envelope := M.exp (-t * 180)
      let tone := M.sin (2 * M.pi * 60 * t) + 0.5 * M.sin (2 * M.pi * 120 * t)
      (envelope * tone, rr))
    (nSamples dur) 0 r

/-- The "Chirp" branch (src lines 125-135). -/
def chirp (M : MathOps) (r : M.Rng) : List Int × M.Rng :=
  let dur : ℚ := 0.04
  renderLoop M 10000
    (fun t rr =>
      let envelope := M.exp (-t * 250)
      let freq := 800 + 2000 * (t / dur)
      let tone := M.sin (2 * M.pi * freq * t)
      (envelope * tone, rr))
    (nSamples dur) 0 r

/-- The "Snap" branch (src lines 137-146). -/
def snap (M : MathOps) (r : M.Rng) : List Int × M.Rng :=
  let dur : ℚ := 0.008
  renderLoop M 16000
    (fun t rr =>
      let envelope := M.exp (-t * 1500)
      let p := M.next rr
      let noise := p.1
      (envelope * noise, p.2))
    (nSamples dur) 0 r

/-- The "Sonar" branch (src lines 148-157). -/
def sonar (M : MathOps) (r : M.Rng) : List Int × M.Rng :=
  let dur : ℚ := 0.15
  renderLoop M 8000
    (fun t rr =>
      let envelope := M.exp (-t * 30)
      let tone := M.sin (2 * M.pi * 1500 * t)
      (envelope * tone, rr))
    (nSamples dur) 0 r

/-- `_generate_sound(name, path)` (src lines 38-167): reseed the generator
to 42, dispatch on the preset name; an unrecognized name returns without
writing anything (src lines 159-160), modelled as `none`.  The result pairs
the written sample buffer (if any) with the generator state left behind. -/
def generateSound (M : MathOps) (name : String) (_r0 : M.Rng) :
    Option (List Int) × M.Rng :=
  let r := M.seed 42
  if name = "Mechanical Clock" then
    let p := mechanicalClock M r
    (some p.1, p.2)
  else if name = "Soft Click" then
    let p := softClick M r
    (some p.1, p.2)
  else if name = "Woodblock" then
    let p := woodblock M r
    (some p.1, p.2)
  else if name = "Metronome" then
    let p := metronome M r
    (some p.1, p.2)
  else if name = "Drip" then
    let p := drip M r
    (some p.1, p.2)
  else if name = "Typewriter" then
    let p := typewriter M r
    (some p.1, p.2)
  else if name = "Pulse" then
    let p := pulse M r
    (some p.1, p.2)
  else if name = "Chirp" then
    let p := chirp M r
    (some p.1, p.2)
  else if name = "Snap" then
    let p := snap M r
    (some p.1, p.2)
  else if name = "Sonar" then
    let p := sonar M r
    (some p.1, p.2)
  else
    (none, r)

/-- `_generate_bell_sound(path)` (src lines 170-191): one second of a
three-partial chime; it never touches the `random` generator. -/
def generateBellSound (M : MathOps) : List Int :=
  let dur : ℚ := 1.0
  (List.range (nSamples dur)).map (fun (i : Nat) =>
    let t : ℚ := (i : ℚ) / 44100
    let envelope := M.exp (-t * 3)
    let tone := 0.5 * M.sin (2 * M.pi * 880 * t)
      + 0.3 * M.sin (2 * M.pi * 1760 * t)
      + 0.2 * M.sin (2 * M.pi * 2640 * t)
    quantizeI 16000 (envelope * tone))

/-- The per-preset peak integer amplitude, read off the `int(amp * ...)`
line of each branch of `_generate_sound`. -/
def peakOf (name : String) : Int :=
  if name = "Mechanical Clock" then 12000
  else if name = "Soft Click" then 8000
  else if name = "Woodblock" then 10000
  else if name = "Metronome" then 14000
  else if name = "Drip" then 10000
  else if name = "Typewriter" then 14000
  else if name = "Pulse" then 16000
  else if name = "Chirp" then 10000
  else if name = "Snap" then 16000
  else if name = "Sonar" then 8000
  else 0

/-- The sample check of claim C9, as a boolean: the stored integer sample
lies in the closed interval [-peak, peak]. -/
def withinPeak (peak : Int) (s : Int) : Bool :=
  decide (-peak ≤ s) && decide (s ≤ peak)

/-- A concrete instantiation of the ambient operations, used to evaluate
the embedding at specific inputs. -/
def trivialOps : MathOps :=
  { Rng := Unit, seed := fun _ => (), next := fun _ => (0, ()),
    sin := fun _ => 0, exp := fun _ => 0, pi := 0 }

/-!  Helper lemmas. -/

lemma clampQ_le_one (x : ℚ) : clampQ x ≤ 1 := by
  unfold clampQ
  exact max_le (by norm_num) (min_le_left _ _)

lemma neg_one_le_clampQ (x : ℚ) : -1 ≤ clampQ x := le_max_left _ _

lemma pyInt_le {q : ℚ} {b : Int} (h : q ≤ (b : ℚ)) :
    pyInt q ≤ b := by
  unfold pyInt
  split
  · exact_mod_cast (Int.floor_le q).trans h
  · exact Int.ceil_le.mpr h

lemma le_pyInt {q : ℚ} {b : Int} (h : (b : ℚ) ≤ q) :
    b ≤ pyInt q := by
  unfold pyInt
  split
  · exact Int.le_floor.mpr h
  · exact_mod_cast h.trans (Int.le_ceil q)

lemma quantizeI_le {amp : Int} (h : 0 ≤ amp) (x : ℚ) : quantizeI amp x ≤ amp := by
  unfold quantizeI
  refine pyInt_le ?_
  calc (amp : ℚ) * clampQ x ≤ (amp : ℚ) * 1 := by
        refine mul_le_mul_of_nonneg_left (clampQ_le_one x) ?_
        exact_mod_cast h
    _ = (amp : ℚ) := mul_one _

lemma neg_le_quantizeI {amp : Int} (h : 0 ≤ amp) (x : ℚ) :
    -amp ≤ quantizeI amp x := by
  unfold quantizeI
  refine le_pyInt ?_
  have : (amp : ℚ) * (-1) ≤ (amp : ℚ) * clampQ x := by
    refine mul_le_mul_of_nonneg_left (neg_one_le_clampQ x) ?_
    exact_mod_cast h
  calc ((-amp : Int) : ℚ) = (amp : ℚ) * (-1) := by push_cast; ring
    _ ≤ (amp : ℚ) * clampQ x := this

lemma withinPeak_quantizeI {amp : Int} (h : 0 ≤ amp) (x : ℚ) :
    withinPeak amp (quantizeI amp x) = true := by
  simp [withinPeak, quantizeI_le h, neg_le_quantizeI h]

lemma renderLoop_length (M : MathOps) (amp : Int) (f : ℚ → M.Rng → ℚ × M.Rng) :
    ∀ (k i : Nat) (r : M.Rng), ((renderLoop M amp f k i r).1).length = k := by
  intro k
  induction k with
  | zero => intro i r; rfl
  | succ n ih => intro i r; simp [renderLoop, ih]

lemma renderLoop_all (M : MathOps) (amp : Int) (f : ℚ → M.Rng → ℚ × M.Rng)
    (h : 0 ≤ amp) :
    ∀ (k i : Nat) (r : M.Rng),
      ((renderLoop M amp f k i r).1).all (withinPeak amp) = true := by
  intro k
  induction k with
  | zero => intro i r; rfl
  | succ n ih =>
    intro i r
    simp only [renderLoop, List.all_cons, Bool.and_eq_true]
    exact ⟨withinPeak_quantizeI h _, ih _ _⟩

lemma nSamples_mechanicalClock : nSamples 0.035 = 1543 := by
  unfold nSamples pyInt
  norm_num
  rfl

lemma nSamples_softClick : nSamples 0.015 = 661 := by
  unfold nSamples pyInt
  norm_num
  rfl

lemma nSamples_woodblock : nSamples 0.04 = 1764 := by
  unfold nSamples pyInt
  norm_num
  rfl

lemma nSamples_metronome : nSamples 0.025 = 1102 := by
  unfold nSamples pyInt
  norm_num
  rfl

lemma nSamples_drip : nSamples 0.06 = 2646 := by
  unfold nSamples pyInt
  norm_num
  rfl

lemma nSamples_typewriter : nSamples 0.012 = 529 := by
  unfold nSamples pyInt
  norm_num
  rfl

lemma nSamples_pulse : nSamples 0.05 = 2205 := by
  unfold nSamples pyInt
  norm_num
  rfl

lemma nSamples_chirp : nSamples 0.04 = 1764 := nSamples_woodblock

lemma nSamples_snap : nSamples 0.008 = 352 := by
  unfold nSamples pyInt
  norm_num
  rfl

lemma nSamples_sonar : nSamples 0.15 = 6615 := by
  unfold nSamples pyInt
  norm_num
  rfl

lemma nSamples_bell : nSamples 1.0 = 44100 := by
  unfold nSamples pyInt
  norm_num
  rfl

lemma duration_pos (p : Phase) : 0 < duration p := by
  cases p <;> decide

lemma advance_sigs (s : TimerState) : (advancePhase s).2 = ["bell"] := by
  unfold advancePhase
  dsimp only
  split
  · split <;> rfl
  · rfl

lemma advance_tickPath (s : TimerState) :
    (advancePhase s).1.tickPath = s.tickPath := by
  unfold advancePhase
  dsimp only
  split
  · split <;> rfl
  · rfl

lemma advance_isRunning (s : TimerState) :
    (advancePhase s).1.isRunning = false := by
  unfold advancePhase
  dsimp only
  split
  · split <;> rfl
  · rfl

lemma advance_timeLeft_duration (s : TimerState) :
    (advancePhase s).1.timeLeft = duration (advancePhase s).1.phase := by
  unfold advancePhase
  dsimp only
  split
  · split <;> rfl
  · rfl

lemma advance_sessionCount (s : TimerState) :
    (advancePhase s).1.sessionCount =
      (if s.phase = Phase.work then s.sessionCount + 1 else s.sessionCount) := by
  unfold advancePhase
  dsimp only
  split
  · rename_i h
    split <;> simp [h]
  · rename_i h
    simp [h]

lemma advance_phase_eq (s : TimerState) :
    (advancePhase s).1.phase =
      (if s.phase = Phase.work then
        (if (s.sessionCount + 1) % sessionsBeforeLongBreak = 0 then
          Phase.long_break else Phase.short_break)
      else Phase.work) := by
  unfold advancePhase
  dsimp only
  split
  · rename_i h
    split <;> rename_i h2 <;> simp [h, h2]
  · rename_i h
    simp [h]

lemma assignTimeLeft_pos (s : TimerState) (v : Int) (h : 0 < v) :
    assignTimeLeft s v = ({ s with timeLeft := v }, []) := by
  unfold assignTimeLeft
  split
  · rename_i he
    subst he
    rfl
  · rw [if_neg (by omega)]

lemma skip_eq_advance (s : TimerState) : skip s = advancePhase s := rfl

/-- The reachability invariant of claim C3. -/
def Inv (s : TimerState) : Prop :=
  0 < s.timeLeft ∧ s.timeLeft ≤ duration s.phase

lemma advance_inv (s : TimerState) : Inv (advancePhase s).1 := by
  constructor
  · rw [advance_timeLeft_duration]; exact duration_pos _
  · rw [advance_timeLeft_duration]

lemma tick_inv (s : TimerState) (h : Inv s) : Inv (tick s).1 := by
  unfold tick assignTimeLeft
  dsimp only
  split
  · split
    · exact h
    · split
      · exact advance_inv _
      · rename_i hpos hne hgt
        have h2 := h.2
        exact ⟨by dsimp only; omega, by dsimp only; omega⟩
  · exact h

lemma reset_inv (s : TimerState) : Inv (resetTimer s).1 := by
  unfold resetTimer
  rw [assignTimeLeft_pos _ _ (duration_pos _)]
  exact ⟨duration_pos _, le_refl _⟩

lemma toggle_inv (s : TimerState) (h : Inv s) : Inv (toggleTimer s) := by
  unfold toggleTimer
  dsimp only
  split <;> exact h

lemma select_inv (s : TimerState) (name : String) (h : Inv s) :
    Inv (selectTickPreset s name) := by
  unfold selectTickPreset
  dsimp only
  split
  · exact h
  · split
    · exact h
    · split <;> exact h

lemma applyOp_inv (s : TimerState) (o : Op) (h : Inv s) : Inv (applyOp s o) := by
  cases o with
  | toggle => exact toggle_inv s h
  | reset => exact reset_inv s
  | skipPhase => rw [applyOp, skip_eq_advance]; exact advance_inv s
  | tickSecond => exact tick_inv s h
  | selectSound name => exact select_inv s name h

lemma foldl_inv (ops : List Op) :
    ∀ s : TimerState, Inv s → Inv (ops.foldl applyOp s) := by
  induction ops with
  | nil => intro s h; exact h
  | cons o rest ih => intro s h; exact ih _ (applyOp_inv s o h)

lemma tick_gt_one (s : TimerState) (h : 1 < s.timeLeft) :
    tick s = ({ s with timeLeft := s.timeLeft - 1 }, [s.tickPath]) := by
  unfold tick assignTimeLeft
  rw [if_pos (by omega), if_neg (by omega), if_neg (by omega)]
  rfl

lemma tick_at_one (s : TimerState) (h : s.timeLeft = 1) :
    tick s = ((advancePhase { s with timeLeft := 0 }).1,
      ["bell", s.tickPath]) := by
  unfold tick assignTimeLeft
  rw [if_pos (by omega), if_neg (by omega), if_pos (by omega), h]
  have h2 := advance_sigs { s with timeLeft := 1 - 1 }
  have h3 := advance_tickPath { s with timeLeft := 1 - 1 }
  rw [Prod.ext_iff]
  refine ⟨rfl, ?_⟩
  simp only [h2, h3]
  rfl

lemma ticksRun_add (a b : Nat) : ∀ s : TimerState,
    ticksRun (a + b) s =
      ((ticksRun b (ticksRun a s).1).1,
       (ticksRun a s).2 ++ (ticksRun b (ticksRun a s).1).2) := by
  induction a with
  | zero => intro s; simp [ticksRun]
  | succ k ih =>
    intro s
    have hn : k + 1 + b = (k + b) + 1 := by omega
    rw [hn]
    show ( (ticksRun (k + b) (tick s).1).1, (tick s).2 ++ (ticksRun (k + b) (tick s).1).2) = _
    rw [ih]
    show _ = ((ticksRun b (ticksRun k (tick s).1).1).1,
      ((tick s).2 ++ (ticksRun k (tick s).1).2) ++ (ticksRun b (ticksRun k (tick s).1).1).2)
    simp [List.append_assoc]

lemma ticksRun_countdown (k : Nat) : ∀ s : TimerState, (k : Int) < s.timeLeft →
    ticksRun k s = ({ s with timeLeft := s.timeLeft - k },
      List.replicate k s.tickPath) := by
  induction k with
  | zero =>
    intro s h
    show (s, []) = _
    rw [Prod.ext_iff]
    constructor
    · show s = { s with timeLeft := s.timeLeft - 0 }
      simp
    · rfl
  | succ k ih =>
    intro s h
    have h1 : 1 < s.timeLeft := by push_cast at h; omega
    show ((ticksRun k (tick s).1).1, (tick s).2 ++ (ticksRun k (tick s).1).2) = _
    rw [tick_gt_one s h1]
    rw [ih { s with timeLeft := s.timeLeft - 1 } (by push_cast at h ⊢; omega)]
    rw [Prod.ext_iff]
    constructor
    · show ({ s with timeLeft := s.timeLeft - 1 - (k : Int) } : TimerState) = _
      have : s.timeLeft - 1 - (k : Int) = s.timeLeft - ((k : Nat) + 1 : Nat) := by
        push_cast
        ring
      rw [this]
    · show s.tickPath :: List.replicate k s.tickPath = _
      rw [List.replicate_succ]

lemma mechanicalClock_length (M : MathOps) (r : M.Rng) :
    (mechanicalClock M r).1.length = 1543 := by
  have h : (mechanicalClock M r).1.length = nSamples 0.035 := by
    unfold mechanicalClock
    exact renderLoop_length M 12000 _ (nSamples 0.035) 0 r
  rw [h, nSamples_mechanicalClock]

lemma softClick_length (M : MathOps) (r : M.Rng) :
    (softClick M r).1.length = 661 := by
  have h : (softClick M r).1.length = nSamples 0.015 := by
    unfold softClick
    exact renderLoop_length M 8000 _ (nSamples 0.015) 0 r
  rw [h, nSamples_softClick]

lemma woodblock_length (M : MathOps) (r : M.Rng) :
    (woodblock M r).1.length = 1764 := by
  have h : (woodblock M r).1.length = nSamples 0.04 := by
    unfold woodblock
    exact renderLoop_length M 10000 _ (nSamples 0.04) 0 r
  rw [h, nSamples_woodblock]

lemma metronome_length (M : MathOps) (r : M.Rng) :
    (metronome M r).1.length = 1102 := by
  have h : (metronome M r).1.length = nSamples 0.025 := by
    unfold metronome
    exact renderLoop_length M 14000 _ (nSamples 0.025) 0 r
  rw [h, nSamples_metronome]

lemma drip_length (M : MathOps) (r : M.Rng) :
    (drip M r).1.length = 2646 := by
  have h : (drip M r).1.length = nSamples 0.06 := by
    unfold drip
    exact renderLoop_length M 10000 _ (nSamples 0.06) 0 r
  rw [h, nSamples_drip]

lemma typewriter_length (M : MathOps) (r : M.Rng) :
    (typewriter M r).1.length = 529 := by
  have h : (typewriter M r).1.length = nSamples 0.012 := by
    unfold typewriter
    exact renderLoop_length M 14000 _ (nSamples 0.012) 0 r
  rw [h, nSamples_typewriter]

lemma pulse_length (M : MathOps) (r : M.Rng) :
    (pulse M r).1.length = 2205 := by
  have h : (pulse M r).1.length = nSamples 0.05 := by
    unfold pulse
    exact renderLoop_length M 16000 _ (nSamples 0.05) 0 r
  rw [h, nSamples_pulse]

lemma chirp_length (M : MathOps) (r : M.Rng) :
    (chirp M r).1.length = 1764 := by
  have h : (chirp M r).1.length = nSamples 0.04 := by
    unfold chirp
    exact renderLoop_length M 10000 _ (nSamples 0.04) 0 r
  rw [h, nSamples_chirp]

lemma snap_length (M : MathOps) (r : M.Rng) :
    (snap M r).1.length = 352 := by
  have h : (snap M r).1.length = nSamples 0.008 := by
    unfold snap
    exact renderLoop_length M 16000 _ (nSamples 0.008) 0 r
  rw [h, nSamples_snap]

lemma sonar_length (M : MathOps) (r : M.Rng) :
    (sonar M r).1.length = 6615 := by
  have h : (sonar M r).1.length = nSamples 0.15 := by
    unfold sonar
    exact renderLoop_length M 8000 _ (nSamples 0.15) 0 r
  rw [h, nSamples_sonar]

lemma bell_length (M : MathOps) : (generateBellSound M).length = 44100 := by
  have h : (generateBellSound M).length = nSamples 1.0 := by
    unfold generateBellSound
    simp
  rw [h, nSamples_bell]

lemma mechanicalClock_all (M : MathOps) (r : M.Rng) :
    ((mechanicalClock M r).1).all (withinPeak 12000) = true := by
  unfold mechanicalClock
  exact renderLoop_all M 12000 _ (by decide) (nSamples 0.035) 0 r

lemma softClick_all (M : MathOps) (r : M.Rng) :
    ((softClick M r).1).all (withinPeak 8000) = true := by
  unfold softClick
  exact renderLoop_all M 8000 _ (by decide) (nSamples 0.015) 0 r

lemma woodblock_all (M : MathOps) (r : M.Rng) :
    ((woodblock M r).1).all (withinPeak 10000) = true := by
  unfold woodblock
  exact renderLoop_all M 10000 _ (by decide) (nSamples 0.04) 0 r

lemma metronome_all (M : MathOps) (r : M.Rng) :
    ((metronome M r).1).all (withinPeak 14000) = true := by
  unfold metronome
  exact renderLoop_all M 14000 _ (by decide) (nSamples 0.025) 0 r

lemma drip_all (M : MathOps) (r : M.Rng) :
    ((drip M r).1).all (withinPeak 10000) = true := by
  unfold drip
  exact renderLoop_all M 10000 _ (by decide) (nSamples 0.06) 0 r

lemma typewriter_all (M : MathOps) (r : M.Rng) :
    ((typewriter M r).1).all (withinPeak 14000) = true := by
  unfold typewriter
  exact renderLoop_all M 14000 _ (by decide) (nSamples 0.012) 0 r

lemma pulse_all (M : MathOps) (r : M.Rng) :
    ((pulse M r).1).all (withinPeak 16000) = true := by
  unfold pulse
  exact renderLoop_all M 16000 _ (by decide) (nSamples 0.05) 0 r

lemma chirp_all (M : MathOps) (r : M.Rng) :
    ((chirp M r).1).all (withinPeak 10000) = true := by
  unfold chirp
  exact renderLoop_all M 10000 _ (by decide) (nSamples 0.04) 0 r

lemma snap_all (M : MathOps) (r : M.Rng) :
    ((snap M r).1).all (withinPeak 16000) = true := by
  unfold snap
  exact renderLoop_all M 16000 _ (by decide) (nSamples 0.008) 0 r

lemma sonar_all (M : MathOps) (r : M.Rng) :
    ((sonar M r).1).all (withinPeak 8000) = true := by
  unfold sonar
  exact renderLoop_all M 8000 _ (by decide) (nSamples 0.15) 0 r

/-- Iterate `_advance_phase` from the initial state: `advanceIter (2k+1)` is
the break reached after the (k+1)-st work completion, `advanceIter (2k)` the
work phase after the k-th break. -/
def advanceIter : Nat → TimerState
  | 0 => initState
  | n + 1 => (advancePhase (advanceIter n)).1

/-- The initial state with the countdown started (running, interval timer
installed): the state driving the 1500-tick scenario. -/
def startedState : TimerState :=
  { initState with isRunning := true, hasTimer := true }

/-- The scenario state one second before the work phase ends. -/
def lastSecondState : TimerState := { startedState with timeLeft := 1 }

/-- The state at the end of the 1500-tick scenario. -/
def endState : TimerState :=
  { timeLeft := 300, isRunning := false, sessionCount := 1,
    phase := Phase.short_break, tickSound := "Metronome",
    tickPath := "Metronome", hasTimer := false }

/-- A running work state at its final second, used to exercise the last
tick of a phase. -/
def lastTickState : TimerState :=
  { initState with isRunning := true, timeLeft := 1 }

/-- A work state with 1499 seconds remaining (skip demo). -/
def skipDemoState : TimerState := { initState with timeLeft := 1499 }

/-- A short-break state with 40 seconds remaining (reset demo). -/
def resetDemoState : TimerState :=
  { initState with phase := Phase.short_break, timeLeft := 40 }

/-!  Claim theorems. -/

/-- Claim C1, counterexample.  In a state with `running = true` and
`time_left == 1`, `tick()` does NOT emit only the bell: `_tick` plays the
tick preset unconditionally after the decrement (src line 321), so the
final tick of a phase emits the bell (played by `_advance_phase`, which the
reactive write invokes synchronously) followed by one tick-preset play
request. -/
theorem final_tick_emits_tick_signal_too :
    (tick lastTickState).2 = ["bell", "Metronome"] ∧
    (tick lastTickState).2 ≠ ["bell"] ∧
    (tick lastTickState).2.count "Metronome" = 1 := by
  decide

/-- Claim C1, amended.  A `tick()` with `running = true` and
`time_left == 1` performs the whole phase advance inside the same call (no
`time_left == 0` state remains at the operation boundary), ends with
`time_left = duration(successor phase)`, and emits exactly one bell play
request followed by exactly one tick-preset play request (not zero);
consequently 1500 ticks from a fresh running work phase emit 1500
tick-preset requests and exactly 1 bell request (not 1499 tick requests),
ending at phase `short_break`, `time_left = 300`, `session_count = 1`. -/
theorem tick_last_second_spec :
    (∀ s : TimerState, s.isRunning = true → s.timeLeft = 1 →
      tick s = ((advancePhase { s with timeLeft := 0 }).1,
        ["bell", s.tickPath]) ∧
      (tick s).1.timeLeft = duration (tick s).1.phase ∧
      0 < (tick s).1.timeLeft ∧
      (tick s).1.phase =
        (if s.phase = Phase.work then
          (if (s.sessionCount + 1) % 4 = 0 then Phase.long_break
           else Phase.short_break)
        else Phase.work)) ∧
    (ticksRun 1500 startedState =
      (endState, List.replicate 1499 "Metronome" ++ ["bell", "Metronome"])) ∧
    ((List.replicate 1499 "Metronome" ++ ["bell", "Metronome"]).count "bell"
        = 1 ∧
     (List.replicate 1499 "Metronome" ++ ["bell", "Metronome"]).count
        "Metronome" = 1500) := by
  refine ⟨?_, ?_, ?_, ?_⟩
  · intro s hr h1
    have ht := tick_at_one s h1
    refine ⟨ht, ?_, ?_, ?_⟩
    · rw [ht]
      exact advance_timeLeft_duration _
    · rw [ht]
      have h2 := advance_timeLeft_duration { s with timeLeft := 0 }
      dsimp only at h2 ⊢
      rw [h2]
      exact duration_pos _
    · rw [ht]
      dsimp only
      rw [advance_phase_eq]
      rfl
  · have h1499 : ticksRun 1499 startedState =
        (lastSecondState, List.replicate 1499 "Metronome") := by
      have h := ticksRun_countdown 1499 startedState (by decide)
      rw [h]
      rfl
    have hlast : ticksRun 1 lastSecondState =
        (endState, ["bell", "Metronome"]) := by decide
    show ticksRun (1499 + 1) startedState = _
    rw [ticksRun_add 1499 1 startedState, h1499]
    show ((ticksRun 1 lastSecondState).1,
      List.replicate 1499 "Metronome" ++ (ticksRun 1 lastSecondState).2) = _
    rw [hlast]
  · rw [List.count_append, List.count_replicate]
    decide
  · rw [List.count_append, List.count_replicate]
    decide

/-- Claim C1, witness of the amended theorem at a concrete state. -/
theorem tick_last_second_spec_witness :
    (tick lastTickState).1.timeLeft = duration (tick lastTickState).1.phase ∧
    (tick lastTickState).1.phase =
      (if lastTickState.phase = Phase.work then
        (if (lastTickState.sessionCount + 1) % 4 = 0 then Phase.long_break
         else Phase.short_break)
      else Phase.work) := by
  have h := tick_last_second_spec.1 lastTickState rfl rfl
  exact ⟨h.2.1, h.2.2.2⟩

/-- Claim C2, confirmed.  `_advance_phase` increments `session_count`
exactly when the phase being left is work; when leaving work the next phase
is `long_break` exactly when the post-increment count is a multiple of 4
and `short_break` otherwise; when leaving either break the next phase is
work.  Starting from `session_count = 0`, four consecutive work completions
produce breaks `short_break, short_break, short_break, long_break`, with
`session_count = 4` after the fourth. -/
theorem advance_phase_session_spec :
    (∀ s : TimerState, (advancePhase s).1.sessionCount =
        (if s.phase = Phase.work then s.sessionCount + 1
         else s.sessionCount)) ∧
    (∀ s : TimerState, s.phase = Phase.work →
        (advancePhase s).1.phase =
          (if (s.sessionCount + 1) % 4 = 0 then Phase.long_break
           else Phase.short_break)) ∧
    (∀ s : TimerState, s.phase ≠ Phase.work →
        (advancePhase s).1.phase = Phase.work) ∧
    ([(advanceIter 1).phase, (advanceIter 3).phase, (advanceIter 5).phase,
      (advanceIter 7).phase] =
      [Phase.short_break, Phase.short_break, Phase.short_break,
       Phase.long_break]) ∧
    (advanceIter 7).sessionCount = 4 := by
  refine ⟨fun s => advance_sessionCount s, ?_, ?_, by decide, by decide⟩
  · intro s h
    rw [advance_phase_eq, if_pos h]
    rfl
  · intro s h
    rw [advance_phase_eq, if_neg h]

/-- Claim C2, witness at concrete states. -/
theorem advance_phase_session_spec_witness :
    (advancePhase initState).1.sessionCount =
      (if initState.phase = Phase.work then initState.sessionCount + 1
       else initState.sessionCount) ∧
    (advancePhase initState).1.phase =
      (if (initState.sessionCount + 1) % 4 = 0 then Phase.long_break
       else Phase.short_break) ∧
    (advancePhase { initState with phase := Phase.long_break }).1.phase =
      Phase.work :=
  ⟨advance_phase_session_spec.1 initState,
   advance_phase_session_spec.2.1 initState rfl,
   advance_phase_session_spec.2.2.1 { initState with phase := Phase.long_break }
     (by decide)⟩

/-- Claim C3, confirmed.  Every state reachable from the initial state by
any finite sequence of the five operations satisfies
`0 <= time_left <= duration(phase)`, and moreover `time_left > 0` at every
operation boundary: a zero produced by the decrement inside `_tick` is
resolved by `_advance_phase` within the same call, so the machine never
rests at zero. -/
theorem reachable_states_invariant :
    ∀ ops : List Op,
      0 ≤ (runOps ops).timeLeft ∧
      0 < (runOps ops).timeLeft ∧
      (runOps ops).timeLeft ≤ duration (runOps ops).phase := by
  intro ops
  have h : Inv (runOps ops) :=
    foldl_inv ops initState ⟨by decide, by decide⟩
  exact ⟨le_of_lt h.1, h.1, h.2⟩

/-- Claim C4, confirmed.  `action_skip` sets `running = false` and performs
exactly the `_advance_phase` procedure regardless of `time_left`: the
result always has `time_left = duration(new phase)`, and leaving work
increments `session_count` by exactly 1. -/
theorem skip_spec :
    ∀ s : TimerState,
      (skip s).1 = (advancePhase s).1 ∧
      (skip s).1.isRunning = false ∧
      (skip s).1.timeLeft = duration (skip s).1.phase ∧
      (s.phase = Phase.work →
        (skip s).1.sessionCount = s.sessionCount + 1) := by
  intro s
  refine ⟨by rw [skip_eq_advance], ?_, ?_, ?_⟩
  · rw [skip_eq_advance]
    exact advance_isRunning s
  · rw [skip_eq_advance]
    exact advance_timeLeft_duration s
  · intro h
    rw [skip_eq_advance, advance_sessionCount, if_pos h]

/-- Claim C4, witness: skipping at `time_left = 1499` during work. -/
theorem skip_spec_witness :
    (skip skipDemoState).1.sessionCount = skipDemoState.sessionCount + 1 ∧
    (skip skipDemoState).1.isRunning = false :=
  ⟨(skip_spec skipDemoState).2.2.2 rfl, (skip_spec skipDemoState).2.1⟩

/-- Claim C5, confirmed.  `action_reset_timer` sets `running = false` and
`time_left = duration(current phase)`, stops the interval timer, and leaves
`phase`, `session_count` and the selected tick preset unchanged; in
particular a reset during `short_break` at `time_left = 40` yields
`time_left = 300` with everything else untouched. -/
theorem reset_spec :
    (∀ s : TimerState,
      (resetTimer s).1 =
        { s with isRunning := false, hasTimer := false,
                 timeLeft := duration s.phase } ∧
      (resetTimer s).2 = []) ∧
    ((resetTimer resetDemoState).1.timeLeft = 300 ∧
     (resetTimer resetDemoState).1.phase = Phase.short_break ∧
     (resetTimer resetDemoState).1.sessionCount = 0 ∧
     (resetTimer resetDemoState).1.tickSound = "Metronome") := by
  constructor
  · intro s
    have h2 : resetTimer s =
        ({ s with isRunning := false, hasTimer := false,
                  timeLeft := duration s.phase }, []) := by
      unfold resetTimer
      dsimp only
      rw [assignTimeLeft_pos _ _ (duration_pos _)]
    exact ⟨by rw [h2], by rw [h2]⟩
  · refine ⟨by decide, by decide, by decide, by decide⟩

/-- Claim C6, counterexample.  An unrecognized preset identifier is NOT
rejected at the call site: selecting "Bogus" changes the state (records the
invalid name) while keeping the previous tick buffer, so the next tick
silently plays the previously selected preset's sound; and the renderer
silently returns no buffer instead of failing. -/
theorem invalid_preset_not_rejected :
    selectTickPreset initState "Bogus" ≠ initState ∧
    (selectTickPreset initState "Bogus").tickSound = "Bogus" ∧
    (selectTickPreset initState "Bogus").tickPath = "Metronome" ∧
    (tick (selectTickPreset initState "Bogus")).2 = ["Metronome"] ∧
    (generateSound trivialOps "Bogus" ()).1 = none := by
  refine ⟨by decide, by decide, by decide, by decide, rfl⟩

/-- Claim C6, amended.  An unrecognized, non-empty preset identifier is
silently ignored rather than rejected: `_generate_sound` returns without
producing a buffer, and selecting it records the new name in `tick_sound`
but leaves `_tick_path` (hence the sound actually played) at the previous
preset. -/
theorem invalid_preset_silent_noop :
    ∀ (s : TimerState) (name : String) (M : MathOps) (r : M.Rng),
      name ∉ tickSounds → name ≠ "" →
      (selectTickPreset s name).tickPath = s.tickPath ∧
      (name ≠ s.tickSound → (selectTickPreset s name).tickSound = name) ∧
      (generateSound M name r).1 = none := by
  intro s name M r hmem hne
  have hmem' := hmem
  simp only [tickSounds, List.mem_cons, List.not_mem_nil, or_false,
    not_or] at hmem'
  obtain ⟨e1, e2, e3, e4, e5, e6, e7, e8, e9, e10⟩ := hmem'
  refine ⟨?_, ?_, ?_⟩
  · unfold selectTickPreset
    dsimp only
    rw [if_neg hne]
    by_cases h2 : name = s.tickSound
    · rw [if_pos h2]
    · rw [if_neg h2, if_neg hmem]
  · intro h2
    unfold selectTickPreset
    dsimp only
    rw [if_neg hne, if_neg h2]
    split <;> rfl
  · unfold generateSound
    dsimp only
    rw [if_neg e1, if_neg e2, if_neg e3, if_neg e4, if_neg e5, if_neg e6,
        if_neg e7, if_neg e8, if_neg e9, if_neg e10]

/-- Claim C6, witness of the amended theorem at "Bogus". -/
theorem invalid_preset_silent_noop_witness :
    (selectTickPreset initState "Bogus").tickPath = "Metronome" ∧
    (selectTickPreset initState "Bogus").tickSound = "Bogus" ∧
    (generateSound trivialOps "Bogus" ()).1 = none := by
  have h := invalid_preset_silent_noop initState "Bogus" trivialOps ()
    (by decide) (by decide)
  exact ⟨h.1, h.2.1 (by decide), h.2.2⟩

/-- Claim C7, confirmed.  `_generate_sound` reseeds the generator to the
fixed seed 42 before dispatching on the preset name, so the rendered buffer
is independent of the incoming generator state: rendering the same preset
twice yields identical buffers, and rendering some preset `a` first does
not change the buffer later rendered for preset `b` (order independence).
This holds for every instantiation of the ambient float/PRNG operations,
in particular for the source's Mersenne Twister. -/
theorem render_deterministic :
    ∀ (M : MathOps) (a b : String) (r₁ r₂ : M.Rng),
      (generateSound M b r₁).1 = (generateSound M b r₂).1 ∧
      (generateSound M b (generateSound M a r₁).2).1 =
        (generateSound M b r₁).1 := by
  intro M a b r₁ r₂
  exact ⟨rfl, rfl⟩

/-- Claim C8, counterexample.  The buffer for "Snap" (duration 0.008 s)
holds 352 samples, but `round(0.008 * 44100) = 353`: the code truncates
(`int(sample_rate * duration)`), it does not round to the nearest
integer. -/
theorem snap_length_not_round :
    Option.map List.length (generateSound trivialOps "Snap" ()).1 =
      some 352 ∧
    round ((0.008 : ℚ) * 44100) = 353 ∧
    (some 352 : Option Nat) ≠ some 353 := by
  refine ⟨?_, by norm_num [round_eq], by decide⟩
  have h : (generateSound trivialOps "Snap" ()).1 =
      some (snap trivialOps (trivialOps.seed 42)).1 := rfl
  rw [h]
  exact congrArg some (snap_length trivialOps (trivialOps.seed 42))

/-- Claim C8, amended.  Every preset's buffer contains exactly
`int(duration * 44100)` samples — truncation, not rounding: Mechanical
Clock (0.035 s) has 1543 samples, Soft Click 661, Woodblock 1764, Metronome
1102, Drip 2646, Typewriter 529, Pulse 2205, Chirp 1764, Snap (0.008 s)
352, Sonar 6615, and the bell (1.0 s) 44100. -/
theorem buffer_sample_counts :
    ∀ (M : MathOps) (r : M.Rng),
      Option.map List.length (generateSound M "Mechanical Clock" r).1 =
        some 1543 ∧
      Option.map List.length (generateSound M "Soft Click" r).1 =
        some 661 ∧
      Option.map List.length (generateSound M "Woodblock" r).1 =
        some 1764 ∧
      Option.map List.length (generateSound M "Metronome" r).1 =
        some 1102 ∧
      Option.map List.length (generateSound M "Drip" r).1 = some 2646 ∧
      Option.map List.length (generateSound M "Typewriter" r).1 =
        some 529 ∧
      Option.map List.length (generateSound M "Pulse" r).1 = some 2205 ∧
      Option.map List.length (generateSound M "Chirp" r).1 = some 1764 ∧
      Option.map List.length (generateSound M "Snap" r).1 = some 352 ∧
      Option.map List.length (generateSound M "Sonar" r).1 = some 6615 ∧
      (generateBellSound M).length = 44100 := by
  intro M r
  exact ⟨congrArg some (mechanicalClock_length M (M.seed 42)),
    congrArg some (softClick_length M (M.seed 42)),
    congrArg some (woodblock_length M (M.seed 42)),
    congrArg some (metronome_length M (M.seed 42)),
    congrArg some (drip_length M (M.seed 42)),
    congrArg some (typewriter_length M (M.seed 42)),
    congrArg some (pulse_length M (M.seed 42)),
    congrArg some (chirp_length M (M.seed 42)),
    congrArg some (snap_length M (M.seed 42)),
    congrArg some (sonar_length M (M.seed 42)),
    bell_length M⟩

/-- Claim C9, confirmed.  Every stored sample of every preset lies within
[-peak, peak] for that preset's amplitude constant (the float sample is
clamped to [-1, 1] before scaling and truncating); the bell's samples lie
within [-16000, 16000]; every catalog peak lies between 8000 and 16000,
and 16000 < 32767, so no stored sample can overflow a little-endian signed
16-bit integer. -/
theorem samples_within_peak :
    (∀ (M : MathOps) (name : String) (r : M.Rng),
        (((generateSound M name r).1.getD []).all
          (withinPeak (peakOf name))) = true) ∧
    (∀ M : MathOps, ((generateBellSound M).all (withinPeak 16000)) = true) ∧
    (tickSounds.all
      (fun n => decide (8000 ≤ peakOf n) && decide (peakOf n ≤ 16000)) =
      true) ∧
    ((16000 : Int) < 32767) := by
  refine ⟨?_, ?_, by decide, by decide⟩
  · intro M name r
    by_cases h1 : name = "Mechanical Clock"
    · subst h1
      exact mechanicalClock_all M _
    by_cases h2 : name = "Soft Click"
    · subst h2
      exact softClick_all M _
    by_cases h3 : name = "Woodblock"
    · subst h3
      exact woodblock_all M _
    by_cases h4 : name = "Metronome"
    · subst h4
      exact metronome_all M _
    by_cases h5 : name = "Drip"
    · subst h5
      exact drip_all M _
    by_cases h6 : name = "Typewriter"
    · subst h6
      exact typewriter_all M _
    by_cases h7 : name = "Pulse"
    · subst h7
      exact pulse_all M _
    by_cases h8 : name = "Chirp"
    · subst h8
      exact chirp_all M _
    by_cases h9 : name = "Snap"
    · subst h9
      exact snap_all M _
    by_cases h10 : name = "Sonar"
    · subst h10
      exact sonar_all M _
    have h : (generateSound M name r).1 = none := by
      unfold generateSound
      dsimp only
      rw [if_neg h1, if_neg h2, if_neg h3, if_neg h4, if_neg h5, if_neg h6,
          if_neg h7, if_neg h8, if_neg h9, if_neg h10]
    rw [h]
    rfl
  · intro M
    unfold generateBellSound
    dsimp only
    rw [List.all_eq_true]
    intro x hx
    rw [List.mem_map] at hx
    obtain ⟨i, _, rfl⟩ := hx
    exact withinPeak_quantizeI (by decide) _

/-- Claim C10, confirmed.  Calling `_tick` with `time_left == 0` is a total
no-op: the guard `time_left > 0` fails, so the state is unchanged and no
play request is emitted (and `time_left` can never go negative even if a
stray timer callback fires). -/
theorem tick_at_zero_noop_spec :
    ∀ s : TimerState, s.timeLeft = 0 → tick s = (s, []) := by
  intro s h
  unfold tick
  rw [if_neg (by omega)]

/-- Claim C10, witness at a concrete zero state. -/
theorem tick_at_zero_noop_spec_witness :
    tick { initState with timeLeft := 0 } =
      ({ initState with timeLeft := 0 }, []) :=
  tick_at_zero_noop_spec { initState with timeLeft := 0 } rfl

end Pomodoro
